import Mathlib

/-!
Shallow embedding of the triage-recovery-hub backend core, with theorems
checking the specification claims against the code.

Source files embedded here:
- models/enums.py           : status / category / urgency / ai-status enumerations
- models/schemas.py         : AITriageResponse (pydantic schema and field constraints)
- services/validation.py    : safe_parse_json, validate_ai_response, get_fallback_response
- services/llm.py           : TriageService.triage_complaint, _build_prompt
- app/pubsub.py             : publish_ticket_update, subscribe_ticket_updates_async
- tasks/triage.py           : process_ticket_triage (claim, commit, error handler), huey retry wrapper
- api/websocket.py          : ConnectionManager, websocket_endpoint message handling,
                              fetch_ticket_snapshots, broadcast_ticket_update

Modelling conventions:
- Python exceptions are explicit: fallible steps return Except or an outcome
  flag; a caught exception is a branch, an uncaught one is a raised outcome.
- Library calls that are external to the repository (json.loads, the Gemini
  client, the redis broker, the SQL engine) are parameters or behaviour
  oracles, so theorems quantify over every behaviour of the external world.
- The relational store is a list of ticket rows; a SQL conditional UPDATE is
  a map over rows guarded by the WHERE clause, with the affected-row count
  computed from the same guard. Uncommitted ORM mutations never touch the
  store list: commits are the only points where the store changes, so the
  rollback in the error handler is the identity on the store.
- Timestamps and the agent fields are not modelled: no claim refers to them.
-/

/-! ## Enumerations (models/enums.py) -/

/-- models/enums.py TicketStatus. -/
inductive TicketStatus where
  | pending
  | processing
  | completed
  | failed
  deriving DecidableEq, Repr

/-- models/enums.py TicketCategory (the closed category set). -/
inductive TicketCategory where
  | billing
  | technical
  | featureRequest
  deriving DecidableEq, Repr

/-- models/enums.py UrgencyLevel (the closed urgency set). -/
inductive UrgencyLevel where
  | high
  | medium
  | low
  deriving DecidableEq, Repr

/-- models/enums.py AIStatus. -/
inductive AIStatus where
  | success
  | fallback
  | error
  deriving DecidableEq, Repr

/-! ## AITriageResponse (models/schemas.py lines 36-49) -/

/-- models/schemas.py AITriageResponse. The pydantic model: category and
urgency are enum-typed (closed sets, enforced here by the field types),
sentiment_score has Field ge=1 le=10, draft_response has Field min_length=20
max_length=2000, ai_status defaults to AIStatus.SUCCESS. -/
structure AITriageResponse where
  category : TicketCategory
  sentiment_score : Int
  urgency : UrgencyLevel
  draft_response : String
  ai_status : AIStatus
  deriving DecidableEq, Repr

/-- The pydantic Field constraints of AITriageResponse that are not already
enforced by the field types: sentiment_score in [1,10] and draft_response
length in [20,2000]. Category and urgency membership in their closed sets is
the typing of the fields. -/
def AITriageResponse.fieldConstraints (r : AITriageResponse) : Prop :=
  1 ≤ r.sentiment_score ∧ r.sentiment_score ≤ 10 ∧
    20 ≤ r.draft_response.length ∧ r.draft_response.length ≤ 2000

instance (r : AITriageResponse) : Decidable r.fieldConstraints := by
  unfold AITriageResponse.fieldConstraints
  infer_instance

/-- services/validation.py get_fallback_response (lines 84-104): the fixed
fallback AITriageResponse. The constructor call sets category, sentiment,
urgency and draft_response; ai_status is NOT passed, so the pydantic default
AIStatus.SUCCESS applies (models/schemas.py line 45). -/
def get_fallback_response : AITriageResponse :=
  { category := TicketCategory.technical
    sentiment_score := 5
    urgency := UrgencyLevel.medium
    draft_response :=
      "Thank you for contacting us. We appreciate your feedback. " ++
      "We\x27re reviewing your concern and will get back to you shortly. " ++
      "Our support team aims to respond within 24 hours."
    ai_status := AIStatus.success }

/-! ## Python values

Decoded JSON values and the bits of Python dynamic-value semantics the
embedded functions use: truthiness, dict.get, and int() conversion. Floats
are not modelled (no claim needs them); every other JSON shape is present. -/

/-- A decoded Python/JSON value. -/
inductive PyVal where
  | int (n : Int)
  | str (s : String)
  | bool (b : Bool)
  | null
  | list (xs : List PyVal)
  | dict (fields : List (String × PyVal))

/-- Python truthiness of a value (`if not x`). -/
def PyVal.truthy : PyVal → Bool
  | .int n => n != 0
  | .str s => !s.isEmpty
  | .bool b => b
  | .null => false
  | .list xs => !xs.isEmpty
  | .dict fs => !fs.isEmpty

/-- Python dict.get: first binding of the key, none when absent. JSON
objects decoded by json.loads have no duplicate keys. -/
def dictGet (fields : List (String × PyVal)) (key : String) : Option PyVal :=
  match fields with
  | [] => none
  | (k, v) :: rest => if k = key then some v else dictGet rest key

/-- Value of a nonempty all-digit character run. -/
def digitsVal (cs : List Char) : Option Nat :=
  if cs.isEmpty then none
  else if cs.all Char.isDigit then
    some (cs.foldl (fun acc c => acc * 10 + (c.toNat - 48)) 0)
  else none

/-- Python int(s) on a string: optional surrounding whitespace, an optional
sign, then a nonempty digit run. (CPython additionally accepts single
underscores between digits and non-ASCII digits; not modelled, not exercised
by any theorem below.) -/
def pyIntOfString (s : String) : Option Int :=
  let cs := s.data.dropWhile Char.isWhitespace
  let cs := (cs.reverse.dropWhile Char.isWhitespace).reverse
  match cs with
  | '-' :: rest => (digitsVal rest).map (fun n => -(n : Int))
  | '+' :: rest => (digitsVal rest).map (fun n => (n : Int))
  | _ => (digitsVal cs).map (fun n => (n : Int))

/-- Python int(x) on a decoded JSON value: ints pass through, booleans are
0/1, numeric strings convert, everything else raises ValueError/TypeError
(modelled as none). -/
def pyInt : PyVal → Option Int
  | .int n => some n
  | .bool b => some (if b then 1 else 0)
  | .str s => pyIntOfString s
  | _ => none

/-- Python str(x) as used in f-string interpolation of protocol error
messages. Lists and dicts get a coarse rendering; no theorem depends on it. -/
def pyStrOf : PyVal → String
  | .int n => toString n
  | .str s => s
  | .bool b => if b then "True" else "False"
  | .null => "None"
  | .list _ => "[...]"
  | .dict _ => "\x7b...\x7d"

/-! ## ValidationService (services/validation.py) -/

/-- Pydantic coercion of a JSON value into TicketCategory: the str-valued
enum accepts exactly its member values. -/
def parseCategory : PyVal → Option TicketCategory
  | .str "Billing" => some TicketCategory.billing
  | .str "Technical" => some TicketCategory.technical
  | .str "Feature Request" => some TicketCategory.featureRequest
  | _ => none

/-- Pydantic coercion of a JSON value into UrgencyLevel. -/
def parseUrgency : PyVal → Option UrgencyLevel
  | .str "High" => some UrgencyLevel.high
  | .str "Medium" => some UrgencyLevel.medium
  | .str "Low" => some UrgencyLevel.low
  | _ => none

/-- Pydantic coercion of a JSON value into AIStatus. -/
def parseAIStatus : PyVal → Option AIStatus
  | .str "success" => some AIStatus.success
  | .str "fallback" => some AIStatus.fallback
  | .str "error" => some AIStatus.error
  | _ => none

/-- Pydantic validation of the sentiment_score field (int, ge=1, le=10). -/
def parseSentiment : PyVal → Option Int
  | .int n => if 1 ≤ n ∧ n ≤ 10 then some n else none
  | _ => none

/-- Pydantic validation of the draft_response field (str, min_length=20,
max_length=2000). -/
def parseDraft : PyVal → Option String
  | .str s => if 20 ≤ s.length ∧ s.length ≤ 2000 then some s else none
  | _ => none

/-- services/validation.py validate_ai_response (lines 65-82): construct
AITriageResponse(**response_data) and catch ValidationError. Any missing or
invalid field is a validation failure (none). A non-dict argument raises
TypeError in the source rather than ValidationError; both roads end in the
fallback at the triage boundary, and it is modelled as none here. The
ai_status key is optional and defaults to AIStatus.success; extra keys are
ignored (pydantic default). -/
def validate_ai_response : PyVal → Option AITriageResponse
  | .dict fs =>
    match dictGet fs "category" with
    | none => none
    | some catV =>
      match parseCategory catV with
      | none => none
      | some cat =>
        match dictGet fs "sentiment_score" with
        | none => none
        | some sentV =>
          match parseSentiment sentV with
          | none => none
          | some sent =>
            match dictGet fs "urgency" with
            | none => none
            | some urgV =>
              match parseUrgency urgV with
              | none => none
              | some urg =>
                match dictGet fs "draft_response" with
                | none => none
                | some drV =>
                  match parseDraft drV with
                  | none => none
                  | some dr =>
                    match dictGet fs "ai_status" with
                    | none =>
                      some { category := cat, sentiment_score := sent,
                             urgency := urg, draft_response := dr,
                             ai_status := AIStatus.success }
                    | some stV =>
                      match parseAIStatus stV with
                      | none => none
                      | some st =>
                        some { category := cat, sentiment_score := sent,
                               urgency := urg, draft_response := dr,
                               ai_status := st }
  | _ => none

/-- services/validation.py safe_parse_json (lines 47-63), the markdown
cleanup applied when the direct parse fails: strip(), drop a leading
code-fence marker (7 characters for the json-tagged fence, else 3 for a
bare fence), drop a trailing bare fence, strip() again. -/
def cleanMarkdown (response_text : String) : String :=
  let cleaned := response_text.trim
  let cleaned :=
    if cleaned.startsWith "```json" then cleaned.drop 7
    else if cleaned.startsWith "```" then cleaned.drop 3
    else cleaned
  let cleaned := if cleaned.endsWith "```" then cleaned.dropRight 3 else cleaned
  cleaned.trim

/-- services/validation.py safe_parse_json (lines 23-63). The stdlib
json.loads is external to the repository and is passed in as the total
function `loads` (none models json.JSONDecodeError, the only exception the
source catches there). Control flow from the source: try the direct parse;
on failure clean the markdown fences and retry exactly once; on a second
failure return None. -/
def safe_parse_json (loads : String → Option PyVal) (response_text : String) :
    Option PyVal :=
  match loads response_text with
  | some parsed => some parsed
  | none => loads (cleanMarkdown response_text)

/-! ## TriageService (services/llm.py) -/

/-- services/llm.py _build_prompt (lines 79-116): the deterministic
instruction prompt embedding the complaint. A pure f-string; it cannot
raise, although it is evaluated outside the try block of triage_complaint. -/
def build_prompt (complaint : String) : String :=
  "You are a customer support triage assistant. Analyze this customer complaint and respond with ONLY valid JSON.\n\nCustomer Complaint:\n"
    ++ complaint ++
    "\n\nRespond with exactly this JSON structure:\n\x7b\n  \"category\": \"Billing\" or \"Technical\" or \"Feature Request\",\n  \"sentiment_score\": number between 1 and 10 (1=very angry, 10=very satisfied),\n  \"urgency\": \"High\" or \"Medium\" or \"Low\",\n  \"draft_response\": \"polite, professional response addressing their concern\"\n\x7d\n\nIMPORTANT RULES:\n1. Return ONLY the JSON object (no markdown, no code blocks)\n2. No explanations or extra text before/after JSON\n3. Ensure all field values are valid and within specified ranges\n4. draft_response must be 20-2000 characters\n5. Use double quotes for JSON strings\n6. Categories are case-sensitive: \"Billing\", \"Technical\", \"Feature Request\"\n7. Urgency levels are case-sensitive: \"High\", \"Medium\", \"Low\"\n"

/-- The external provider call (self.model.generate_content followed by
response.text.strip()): either raises or yields the stripped output text.
Except.error is any exception out of the provider stack. -/
def ProviderCall := Except String String

/-- The try-block body of services/llm.py triage_complaint (lines 45-73):
propagates any provider exception, otherwise parses and validates, reaching
for the fallback on a parse or validation failure. The source guard
`if not response_json` is Python truthiness, so a parsed-but-falsy JSON
value (0, empty containers, false, null) also takes the fallback road. -/
def triage_body (loads : String → Option PyVal) (provider : ProviderCall) :
    Except String AITriageResponse :=
  match provider with
  | Except.error e => Except.error e
  | Except.ok response_text =>
    match safe_parse_json loads response_text with
    | none => Except.ok get_fallback_response
    | some response_json =>
      if !response_json.truthy then Except.ok get_fallback_response
      else
        match validate_ai_response response_json with
        | none => Except.ok get_fallback_response
        | some validated => Except.ok validated

/-- services/llm.py triage_complaint (lines 31-77): the try-block body
wrapped in the catch-all `except Exception` that converts any escaped
exception into the fallback response. The prompt construction before the
try block is a pure f-string (build_prompt) and cannot raise. An exception
result here would model an exception escaping the function boundary. -/
def triage_complaint (loads : String → Option PyVal) (provider : ProviderCall) :
    Except String AITriageResponse :=
  match triage_body loads provider with
  | Except.ok v => Except.ok v
  | Except.error _ => Except.ok get_fallback_response

/-! ## Event publish (app/pubsub.py publish_ticket_update, lines 30-62) -/

/-- Behaviour of the redis broker for one publish call: whether
get_redis_client() (redis.from_url) returns a client, and whether
client.publish succeeds once a client exists. json.dumps with default=str
on the payloads built in tasks/triage.py is total and is not a failure
point. -/
structure BrokerBehavior where
  createOk : Bool
  publishOk : Bool
  deriving DecidableEq, Repr

/-- Observable outcome of publish_ticket_update. -/
inductive PublishResult where
  | returnedTrue
  | returnedFalse
  | raised (e : String)
  deriving DecidableEq, Repr

/-- app/pubsub.py publish_ticket_update (lines 30-62). Control flow of the
try / except / finally in the source:
- client creation fails: the except block catches and evaluates
  `return False`, but the finally block then runs `client.close()` with the
  local name `client` never bound, raising NameError, which replaces the
  return value: the call raises.
- client created, publish fails: the except block returns False; the finally
  block closes the bound client.
- both succeed: returns True. -/
def publish_ticket_update (b : BrokerBehavior) : PublishResult :=
  if !b.createOk then PublishResult.raised "NameError"
  else if !b.publishOk then PublishResult.returnedFalse
  else PublishResult.returnedTrue

/-! ## Ticket rows and the store (models/ticket.py, app/database.py) -/

/-- models/ticket.py Ticket: the mapped columns the core claims refer to.
Timestamps and the agent columns are omitted (no claim mentions them).
There is NO ai_status column on the ORM model: the migration creates a raw
ai_status column in the database, but models/ticket.py never maps it, so a
queried row exposes no such attribute; the assignment at tasks/triage.py
line 83 only creates a transient unmapped attribute on that one
worker-process instance, which the commit never writes to the store. -/
structure Ticket where
  id : Int
  customer_complaint : String
  status : TicketStatus
  category : Option TicketCategory
  sentiment_score : Option Int
  urgency : Option UrgencyLevel
  ai_draft_response : Option String
  error_message : Option String
  deriving DecidableEq, Repr

/-- db.query(Ticket).filter(Ticket.id == ticket_id).first(). -/
def findTicket (store : List Ticket) (ticket_id : Int) : Option Ticket :=
  store.find? (fun t => t.id == ticket_id)

/-- Apply an update to every row matching the ticket id (the SET part of an
UPDATE ... WHERE id = ticket_id). -/
def updateWhereId (store : List Ticket) (ticket_id : Int) (f : Ticket → Ticket) :
    List Ticket :=
  store.map (fun t => if t.id == ticket_id then f t else t)

/-- tasks/triage.py lines 49-54, the atomic claim:
UPDATE tickets SET status=PROCESSING WHERE id=ticket_id AND status=PENDING,
committed as one statement. Returns the updated store and the affected-row
count (result.rowcount): the number of rows matching the WHERE clause. -/
def claimUpdate (ticket_id : Int) (store : List Ticket) : List Ticket × Nat :=
  (store.map (fun t =>
      if t.id == ticket_id && t.status == TicketStatus.pending then
        { t with status := TicketStatus.processing }
      else t),
   store.countP (fun t => t.id == ticket_id && t.status == TicketStatus.pending))

/-- tasks/triage.py lines 79-85, the merge of the AI result into the ticket
row followed by the completed transition, as committed by line 87. The
assignment ticket.ai_status = ai_response.ai_status at line 83 sets an
unmapped attribute (the ORM model has no ai_status column), so the commit
persists every field here except that one, which never reaches the store. -/
def applyTriage (ai : AITriageResponse) (t : Ticket) : Ticket :=
  { t with
    category := some ai.category
    sentiment_score := some ai.sentiment_score
    urgency := some ai.urgency
    ai_draft_response := some ai.draft_response
    status := TicketStatus.completed
    error_message := none }

/-! ## The claim-and-process pipeline (tasks/triage.py) -/

/-- Fault injection for the store and classifier steps of one task
invocation. Each flag makes the corresponding source step raise:
- failQuery: the initial db.query (line 42) raises;
- failClaim: the claim execute/commit (lines 49-54) raises, nothing
  committed;
- failTriage: the execution step raises out of the classifier call site
  (lines 70-76; covers db.refresh as well, which sits in the same
  claimed-but-uncommitted region);
- failCommit: the completed-state commit (line 87) raises, the session is
  rolled back so the merge never reaches the store;
- failHandler: the error-handler re-query/commit (lines 116-120) raises
  SQLAlchemyError, so the failed status is never written. -/
structure DbFaults where
  failQuery : Bool
  failClaim : Bool
  failTriage : Bool
  failCommit : Bool
  failHandler : Bool
  deriving DecidableEq, Repr

/-- The no-fault oracle: every store operation succeeds. -/
def noFaults : DbFaults :=
  { failQuery := false, failClaim := false, failTriage := false,
    failCommit := false, failHandler := false }

/-- Result of one invocation of process_ticket_triage: the committed store,
whether the invocation re-raised (feeding the huey retry mechanism), and
whether the triage execution step ran in this invocation. -/
structure RunResult where
  store : List Ticket
  raised : Bool
  didTriage : Bool
  deriving DecidableEq, Repr

/-- tasks/triage.py lines 108-135, the except-block: rollback (identity on
the committed store), re-query the ticket, unconditionally set
status=FAILED with the error message truncated to 500 characters, commit,
and publish. A SQLAlchemyError inside this block (failHandler) is caught
and leaves the store as it was. The publish call here cannot change the
store, and the invocation re-raises in every case. -/
def errorHandler (f : DbFaults) (ticket_id : Int) (msg : String)
    (store : List Ticket) : List Ticket :=
  if f.failHandler then store
  else
    match findTicket store ticket_id with
    | none => store
    | some _ =>
      updateWhereId store ticket_id (fun t =>
        { t with status := TicketStatus.failed,
                 error_message := some (msg.take 500) })

/-- tasks/triage.py process_ticket_triage (lines 20-141), one invocation.
`ai` is the response triage_complaint returns for this complaint
(triage_complaint is total and always hands back a response object, which
is truthy, so the `if not ai_response: raise ValueError` guard at line 75
never fires). Control flow from the source: query the ticket (absent: return);
atomically claim (rowcount 0: log and return); run the classifier; merge and
commit the completed state; publish (a publish that raises NameError is an
exception inside the try block and lands in the error handler). Any raising
step diverts to errorHandler and the invocation re-raises. -/
def process_ticket_triage (ai : AITriageResponse) (f : DbFaults)
    (pub : BrokerBehavior) (ticket_id : Int) (store : List Ticket) : RunResult :=
  if f.failQuery then
    { store := errorHandler f ticket_id "db query error" store,
      raised := true, didTriage := false }
  else
    match findTicket store ticket_id with
    | none => { store := store, raised := false, didTriage := false }
    | some _ =>
      if f.failClaim then
        { store := errorHandler f ticket_id "db claim error" store,
          raised := true, didTriage := false }
      else
        let claimed := claimUpdate ticket_id store
        if claimed.2 == 0 then
          { store := claimed.1, raised := false, didTriage := false }
        else if f.failTriage then
          { store := errorHandler f ticket_id "triage error" claimed.1,
            raised := true, didTriage := true }
        else if f.failCommit then
          { store := errorHandler f ticket_id "db commit error" claimed.1,
            raised := true, didTriage := true }
        else
          let committed := updateWhereId claimed.1 ticket_id (applyTriage ai)
          match publish_ticket_update pub with
          | PublishResult.raised e =>
            { store := errorHandler f ticket_id e committed,
              raised := true, didTriage := true }
          | _ => { store := committed, raised := false, didTriage := true }

/-- tasks/triage.py line 19, @huey.task(retries=3, retry_delay=5): run the
task; while it raises and retry budget remains, run it again (the 5s delay
has no observable effect on the store). `fuel` is 1 + retries, so the
default configuration is fuel = 4. Per-invocation faults come from the
oracle `faults`. Returns the final store, the number of invocations, and
the number of invocations in which the triage execution step ran. -/
def hueyRun (ai : AITriageResponse) (pub : BrokerBehavior) (ticket_id : Int) :
    (Nat → DbFaults) → List Ticket → Nat → List Ticket × Nat × Nat
  | _, store, 0 => (store, 0, 0)
  | faults, store, fuel + 1 =>
    let r := process_ticket_triage ai (faults 0) pub ticket_id store
    if r.raised then
      let rest := hueyRun ai pub ticket_id (fun n => faults (n + 1)) r.store fuel
      (rest.1, rest.2.1 + 1, rest.2.2 + (if r.didTriage then 1 else 0))
    else
      (r.store, 1, if r.didTriage then 1 else 0)

/-- N sequential executions of the atomic claim statement against the same
store (tasks/triage.py lines 49-54). Because the claim is a single atomic
UPDATE, any interleaving of N concurrent claim attempts serializes into
such a sequence. Returns the final store and the rowcount each attempt
observed, in serialization order. -/
def runClaims (ticket_id : Int) : List Ticket → Nat → List Ticket × List Nat
  | store, 0 => (store, [])
  | store, n + 1 =>
    let first := claimUpdate ticket_id store
    let rest := runClaims ticket_id first.1 n
    (rest.1, first.2 :: rest.2)

/-! ## Subscription multiplexer (api/websocket.py) -/

/-- api/websocket.py ConnectionManager.active_connections: ticket_id to the
set of subscribed connections, modelled as an association list of
duplicate-free connection lists keyed by ticket id. Connections are
identified by Nat. The all_connections set and the redis_task handle drive
listener start/stop, which no claim quantifies over; they are omitted. -/
def ConnMap := List (Int × List Nat)

/-- Membership of a connection in the subscriber set of a ticket id. -/
def connMapHas (m : ConnMap) (ticket_id : Int) (ws : Nat) : Bool :=
  match m with
  | [] => false
  | (tid, conns) :: rest =>
    if tid == ticket_id then conns.contains ws else connMapHas rest ticket_id ws

/-- The subscriber list for a ticket id (empty when the key is absent —
the defaultdict view used by broadcast_ticket_update through the explicit
`ticket_id in self.active_connections` guard). -/
def connMapGet (m : ConnMap) (ticket_id : Int) : List Nat :=
  match m with
  | [] => []
  | (tid, conns) :: rest => if tid == ticket_id then conns else connMapGet rest ticket_id

/-- Whether the key is present (Python `ticket_id in self.active_connections`;
broadcast_ticket_update reads the plain dict, so no default entry is
created). -/
def connMapHasKey (m : ConnMap) (ticket_id : Int) : Bool :=
  match m with
  | [] => false
  | (tid, _) :: rest => tid == ticket_id || connMapHasKey rest ticket_id

/-- self.active_connections[tid].add(websocket): set insertion on the
defaultdict (the key is created when absent). -/
def connMapAdd (m : ConnMap) (ticket_id : Int) (ws : Nat) : ConnMap :=
  match m with
  | [] => [(ticket_id, [ws])]
  | (tid, conns) :: rest =>
    if tid == ticket_id then
      (tid, if conns.contains ws then conns else conns ++ [ws]) :: rest
    else (tid, conns) :: connMapAdd rest ticket_id ws

/-- self.active_connections[tid].discard(websocket) guarded by
`if tid in self.active_connections` (unsubscribe leaves empty sets in
place; only disconnect prunes them). -/
def connMapDiscard (m : ConnMap) (ticket_id : Int) (ws : Nat) : ConnMap :=
  match m with
  | [] => []
  | (tid, conns) :: rest =>
    if tid == ticket_id then (tid, conns.erase ws) :: rest
    else (tid, conns) :: connMapDiscard rest ticket_id ws

/-- api/websocket.py ConnectionManager.subscribe (lines 80-84): add the
connection to the subscriber set of every requested ticket id. -/
def manager_subscribe (m : ConnMap) (ws : Nat) (ticket_ids : List Int) : ConnMap :=
  ticket_ids.foldl (fun acc tid => connMapAdd acc tid ws) m

/-- api/websocket.py ConnectionManager.unsubscribe (lines 86-91): discard
the connection from the subscriber set of every requested ticket id;
absent ids are a no-op. -/
def manager_unsubscribe (m : ConnMap) (ws : Nat) (ticket_ids : List Int) : ConnMap :=
  ticket_ids.foldl (fun acc tid => connMapDiscard acc tid ws) m

/-- The websocket message `{"type": "ticket_updated", "data": d}` built at
api/websocket.py lines 103-106. -/
def wsUpdateMessage (d : PyVal) : PyVal :=
  PyVal.dict [("type", PyVal.str "ticket_updated"), ("data", d)]

/-- Outcome of the broadcast callback: the (connection, message) deliveries
it attempted, or the exception it raised. Individual send failures are
caught inside the per-connection loop (lines 113-118) and do not alter the
attempted-delivery list seen here. -/
inductive CallbackResult where
  | ok (sent : List (Nat × PyVal))
  | raised (e : String)

/-- api/websocket.py ConnectionManager.broadcast_ticket_update
(lines 93-118), on the decoded bridge payload `data`:
- data.get("ticket_id") on a non-dict raises AttributeError;
- a missing or falsy ticket_id returns without sending;
- a truthy non-int ticket_id never equals an int dict key, so the
  membership test fails and nothing is sent;
- with a subscribed ticket_id, data["data"] raises KeyError when the key
  is absent, else the update message goes to every subscriber (send errors
  are caught per connection). -/
def broadcast_ticket_update (m : ConnMap) (data : PyVal) : CallbackResult :=
  match data with
  | PyVal.dict fs =>
    match dictGet fs "ticket_id" with
    | none => CallbackResult.ok []
    | some tidV =>
      if !tidV.truthy then CallbackResult.ok []
      else
        match tidV with
        | PyVal.int tid =>
          if connMapHasKey m tid then
            match dictGet fs "data" with
            | none => CallbackResult.raised "KeyError"
            | some d =>
              CallbackResult.ok ((connMapGet m tid).map (fun ws => (ws, wsUpdateMessage d)))
          else CallbackResult.ok []
        | _ => CallbackResult.ok []
  | _ => CallbackResult.raised "AttributeError"

/-! ## Bridge listener (app/pubsub.py subscribe_ticket_updates_async) -/

/-- One message from the redis pubsub channel as seen by the listener loop:
the envelope type (message["type"]) and the result of
json.loads(message["data"]) — none models json.JSONDecodeError, the only
exception the per-message handler catches. -/
structure BridgeMessage where
  msgType : String
  payload : Option PyVal

/-- Result of running the listener over a finite prefix of the channel:
every delivery attempted, whether the loop was terminated by an exception
escaping to the outer handler, and how many messages it consumed. -/
structure ListenResult where
  delivered : List (Nat × PyVal)
  terminated : Bool
  consumed : Nat

/-- app/pubsub.py subscribe_ticket_updates_async (lines 107-133) driven
over a finite prefix of the channel stream, with broadcast_ticket_update as
the callback (as wired in ConnectionManager.connect, api/websocket.py line
38) against a fixed subscription map. Per iteration: skip non-"message"
envelopes; a json.JSONDecodeError is caught, logged and skipped; any other
exception out of the callback escapes the `async for` into the outer
`except Exception` (line 129), which logs and falls through to finally —
the loop is over and the remaining messages are never consumed. -/
def subscribe_ticket_updates_async (m : ConnMap) :
    List BridgeMessage → ListenResult
  | [] => { delivered := [], terminated := false, consumed := 0 }
  | msg :: rest =>
    if msg.msgType != "message" then
      let r := subscribe_ticket_updates_async m rest
      { r with consumed := r.consumed + 1 }
    else
      match msg.payload with
      | none =>
        let r := subscribe_ticket_updates_async m rest
        { r with consumed := r.consumed + 1 }
      | some data =>
        match broadcast_ticket_update m data with
        | CallbackResult.ok sent =>
          let r := subscribe_ticket_updates_async m rest
          { delivered := sent ++ r.delivered, terminated := r.terminated,
            consumed := r.consumed + 1 }
        | CallbackResult.raised _ =>
          { delivered := [], terminated := true, consumed := 1 }

/-! ## Websocket endpoint protocol step (api/websocket.py websocket_endpoint) -/

/-- A websocket message sent to the client by one protocol step. The
ticket_updated snapshot payload carries the ticket row it serializes
(api/websocket.py line 235 serializes via TicketResponse; the row fields
modelled here all survive that projection). -/
inductive WsOut where
  | errorMsg (message : String)
  | subscribed (ticket_ids : List Int)
  | ticketUpdated (snapshot : Ticket)
  | pong
  deriving DecidableEq, Repr

/-- The attribute names a freshly queried ORM Ticket row exposes: the
mapped columns of models/ticket.py (lines 29-53). ai_status is absent —
the migration adds a raw ai_status column to the database, but the ORM
model never maps it, and the transient attribute set at tasks/triage.py
line 83 exists only on that worker-process instance. -/
def ticketRowAttrs : List String :=
  ["id", "customer_complaint", "status", "category", "sentiment_score",
   "urgency", "ai_draft_response", "agent_edited_response", "resolved_at",
   "agent_id", "created_at", "updated_at", "error_message"]

/-- The fields models/schemas.py TicketResponse (lines 54-73) declares.
None of them has a default value, so pydantic v2 treats every one —
including ai_status, whose Optional annotation only widens the type — as
required. -/
def ticketResponseFields : List String :=
  ["id", "customer_complaint", "status", "category", "sentiment_score",
   "urgency", "ai_draft_response", "ai_status", "agent_edited_response",
   "resolved_at", "agent_id", "created_at", "updated_at", "error_message"]

/-- TicketResponse.model_validate(row) with from_attributes=True
(models/schemas.py lines 71-73): reads every declared field off the row; a
missing attribute fails that required field and raises ValidationError.
Because ai_status is declared but no queried row exposes it, this raises
for every row. On success the wire payload is the projection of the row
(every field modelled in Ticket survives it). -/
def ticketResponse_model_validate (t : Ticket) : Except String Ticket :=
  if ticketResponseFields.all (fun f => ticketRowAttrs.contains f) then
    Except.ok t
  else Except.error "ValidationError"

/-- The serialization loop body of fetch_ticket_snapshots (api/websocket.py
lines 233-236): append each serialized row to results; the first
serialization exception escapes the for loop into the except (line 237),
which leaves the rows serialized so far as the returned value. -/
def serializeRows : List Ticket → List Ticket
  | [] => []
  | t :: rest =>
    match ticketResponse_model_validate t with
    | Except.ok r => r :: serializeRows rest
    | Except.error _ => []

/-- api/websocket.py fetch_ticket_snapshots (lines 223-239):
db.query(Ticket).filter(Ticket.id.in_(ticket_ids)).all(), then each row
serialized through TicketResponse inside a try whose except returns the
results accumulated so far. Since TicketResponse requires ai_status and no
queried row has that attribute, the first matching row already raises, so
the function returns the empty list whenever any row matches (and trivially
when none does). -/
def fetch_ticket_snapshots (store : List Ticket) (ticket_ids : List Int) :
    List Ticket :=
  serializeRows (store.filter (fun t => ticket_ids.contains t.id))

/-- One iteration of the websocket_endpoint receive loop
(api/websocket.py lines 150-214) on a decoded client request (a JSON
object, given by its fields), against the persisted store and the current
subscription map. Returns the new subscription map and the messages sent
on this connection, in order. Branches from the source:
- subscribe: reject a non-list ticket_ids with an error; convert every
  entry with int() — [int(x) for x in raw_ids] — and reject the whole
  request with an error if any conversion raises; otherwise register the
  subscriptions, acknowledge with the converted ids, then fetch store
  snapshots (off the event loop, from the store alone) and send each as a
  ticket_updated message;
- unsubscribe: only if ticket_ids is a list, keep the entries int()
  accepts, drop the rest, deregister, and send nothing (a non-list sends
  nothing either);
- ping: answer pong;
- anything else: an unknown-action error. -/
def websocket_endpoint_step (store : List Ticket) (m : ConnMap) (ws : Nat)
    (request : List (String × PyVal)) : ConnMap × List WsOut :=
  match dictGet request "action" with
  | some (PyVal.str "subscribe") =>
    let raw_ids := (dictGet request "ticket_ids").getD (PyVal.list [])
    match raw_ids with
    | PyVal.list xs =>
      match xs.mapM pyInt with
      | none => (m, [WsOut.errorMsg "All ticket_ids must be valid integers"])
      | some ticket_ids =>
        let m2 := manager_subscribe m ws ticket_ids
        let snapshots := fetch_ticket_snapshots store ticket_ids
        (m2, WsOut.subscribed ticket_ids :: snapshots.map WsOut.ticketUpdated)
    | _ => (m, [WsOut.errorMsg "ticket_ids must be a list of integers"])
  | some (PyVal.str "unsubscribe") =>
    let raw_ids := (dictGet request "ticket_ids").getD (PyVal.list [])
    match raw_ids with
    | PyVal.list xs => (manager_unsubscribe m ws (xs.filterMap pyInt), [])
    | _ => (m, [])
  | some (PyVal.str "ping") => (m, [WsOut.pong])
  | some other => (m, [WsOut.errorMsg ("Unknown action: " ++ pyStrOf other)])
  | none => (m, [WsOut.errorMsg ("Unknown action: " ++ pyStrOf PyVal.null)])

/-! ## Concrete sample data used by witnesses and counterexamples -/

/-- Whether a protocol message is the error response shape. -/
def WsOut.isError : WsOut → Bool
  | WsOut.errorMsg _ => true
  | _ => false

/-- A freshly created pending ticket (status defaults to PENDING at
creation, api/tickets.py). -/
def tPend : Ticket :=
  { id := 1
    customer_complaint := "The app crashes every time I try to log in."
    status := TicketStatus.pending
    category := none
    sentiment_score := none
    urgency := none
    ai_draft_response := none
    error_message := none }

/-- A ticket whose triage already completed. -/
def tDone : Ticket :=
  { id := 2
    customer_complaint := "I was charged twice for my subscription."
    status := TicketStatus.completed
    category := some TicketCategory.billing
    sentiment_score := some 3
    urgency := some UrgencyLevel.high
    ai_draft_response := some "We are sorry about the duplicate charge and will refund it."
    error_message := none }

/-- A ticket in the terminal failed state. -/
def tFail : Ticket :=
  { id := 3
    customer_complaint := "Please add a dark mode to the dashboard."
    status := TicketStatus.failed
    category := none
    sentiment_score := none
    urgency := none
    ai_draft_response := none
    error_message := some "boom" }

/-- The fault oracle of the always-throwing classifier scenario: the triage
execution step raises in every invocation, every store operation succeeds. -/
def alwaysTriageFault : Nat → DbFaults :=
  fun _ => { noFaults with failTriage := true }

/-- A broker that accepts every publish. -/
def brokerUp : BrokerBehavior := { createOk := true, publishOk := true }

/-- A subscription map with connection 10 subscribed to ticket 1. -/
def demoConns : ConnMap := [(1, [10])]

/-- A well-formed bridge payload for ticket 1, as published by the worker. -/
def goodPayload : PyVal :=
  PyVal.dict [("ticket_id", PyVal.int 1),
              ("data", PyVal.dict [("id", PyVal.int 1),
                                   ("status", PyVal.str "completed")])]

/-- A channel message carrying the well-formed payload. -/
def goodMsg : BridgeMessage :=
  { msgType := "message", payload := some goodPayload }

/-- A channel message whose body is not JSON at all: json.loads raises
JSONDecodeError. -/
def syntaxBadMsg : BridgeMessage :=
  { msgType := "message", payload := none }

/-- A channel message whose body is the string "42": valid JSON, so
json.loads succeeds, but the decoded value is not an object. -/
def nonObjectMsg : BridgeMessage :=
  { msgType := "message", payload := some (PyVal.int 42) }

/-! ## Helper lemmas -/

theorem findTicket_singleton (t : Ticket) : findTicket [t] t.id = some t := by
  simp [findTicket]

theorem claimUpdate_pending (t : Ticket) (h : t.status = TicketStatus.pending) :
    claimUpdate t.id [t] = ([{ t with status := TicketStatus.processing }], 1) := by
  simp [claimUpdate, h]

theorem claimUpdate_nonpending (t : Ticket) (h : t.status ≠ TicketStatus.pending) :
    claimUpdate t.id [t] = ([t], 0) := by
  have hb : (t.status == TicketStatus.pending) = false := by
    simpa using h
  simp [claimUpdate, hb]
  intro hc
  exact absurd hc h

theorem errorHandler_singleton (f : DbFaults) (msg : String) (t : Ticket) :
    errorHandler f t.id msg [t] =
      if f.failHandler then [t]
      else [{ t with status := TicketStatus.failed,
                     error_message := some (msg.take 500) }] := by
  by_cases hf : f.failHandler <;>
    simp [errorHandler, hf, findTicket_singleton, updateWhereId]

theorem runClaims_nonpending (t : Ticket) (h : t.status ≠ TicketStatus.pending) :
    ∀ n : Nat, runClaims t.id [t] n = ([t], List.replicate n 0) := by
  intro n
  induction n with
  | zero => simp [runClaims]
  | succ k ih => simp [runClaims, claimUpdate_nonpending t h, ih, List.replicate_succ]

theorem process_nonpending_nofault (t : Ticket) (ai : AITriageResponse)
    (pub : BrokerBehavior) (h : t.status ≠ TicketStatus.pending) :
    process_ticket_triage ai noFaults pub t.id [t] =
      { store := [t], raised := false, didTriage := false } := by
  simp [process_ticket_triage, noFaults, findTicket_singleton,
    claimUpdate_nonpending t h]

/-! ## Claim theorems -/

set_option maxRecDepth 8000

/-- C1: whenever the provider call throws, triage_complaint returns the
fixed fallback TriageResult, and that result satisfies every field
constraint (category and urgency live in their closed enum types,
sentiment_score is in [1,10], draft_response length is in [20,2000]) —
but its ai_status is AIStatus.success, the pydantic default that
get_fallback_response never overrides, NOT AIStatus.fallback as the claim
states. This theorem evaluates the code at the failing input and records
the divergence. -/
theorem fallback_ai_status_is_success :
    (∀ (loads : String → Option PyVal) (e : String),
        triage_complaint loads (Except.error e) = Except.ok get_fallback_response) ∧
    get_fallback_response.fieldConstraints ∧
    get_fallback_response.category = TicketCategory.technical ∧
    get_fallback_response.sentiment_score = 5 ∧
    get_fallback_response.urgency = UrgencyLevel.medium ∧
    get_fallback_response.ai_status = AIStatus.success ∧
    get_fallback_response.ai_status ≠ AIStatus.fallback := by
  refine ⟨fun loads e => rfl, by decide, rfl, rfl, rfl, rfl, by decide⟩

/-- C6: for every complaint (hence every provider output) and every
behaviour of the external provider and of the JSON parser, triage_complaint
returns a value and never lets an exception escape its boundary: the result
is always Except.ok; a provider exception and a schema-validation failure
are both recovered locally into the fallback result. -/
theorem triage_never_raises (loads : String → Option PyVal)
    (provider : ProviderCall) :
    (triage_complaint loads provider).isOk = true ∧
    (∀ e : String, provider = Except.error e →
        triage_complaint loads provider = Except.ok get_fallback_response) ∧
    (∀ (text : String) (j : PyVal), provider = Except.ok text →
        safe_parse_json loads text = some j → j.truthy = true →
        validate_ai_response j = none →
        triage_complaint loads provider = Except.ok get_fallback_response) := by
  refine ⟨?_, ?_, ?_⟩
  · unfold triage_complaint
    cases triage_body loads provider <;> rfl
  · intro e he
    subst he
    rfl
  · intro text j htext hp ht hv
    subst htext
    unfold triage_complaint triage_body
    simp [hp, ht, hv]

/-- C6 witness: at a provider that raises and a parser that always fails,
the call returns ok and equals the fallback. -/
theorem triage_never_raises_witness :
    (triage_complaint (fun _ => none) (Except.error "connection reset")).isOk = true ∧
    triage_complaint (fun _ => none) (Except.error "connection reset") =
      Except.ok get_fallback_response :=
  ⟨(triage_never_raises (fun _ => none) (Except.error "connection reset")).1,
   (triage_never_raises (fun _ => none) (Except.error "connection reset")).2.1
     "connection reset" rfl⟩

/-- C10: for every provider output text, safe_parse_json first hands the
text to the JSON parser directly; only when that fails does it strip the
code-fence markers and whitespace and parse exactly once more; and when the
second parse also fails, triage_complaint answers with the fallback result
instead of raising. -/
theorem parse_retry_once (loads : String → Option PyVal) (text : String) :
    (∀ j : PyVal, loads text = some j → safe_parse_json loads text = some j) ∧
    (loads text = none →
        safe_parse_json loads text = loads (cleanMarkdown text)) ∧
    (loads text = none → loads (cleanMarkdown text) = none →
        triage_complaint loads (Except.ok text) = Except.ok get_fallback_response) := by
  refine ⟨?_, ?_, ?_⟩
  · intro j hj
    simp [safe_parse_json, hj]
  · intro h0
    simp [safe_parse_json, h0]
  · intro h0 h1
    unfold triage_complaint triage_body
    simp [safe_parse_json, h0, h1]

/-- C10 witness: with a parser that fails on the raw text and on the
cleaned text, the direct-success case, the retry case and the fallback case
are all exercised at concrete inputs. -/
theorem parse_retry_once_witness :
    safe_parse_json (fun _ => some (PyVal.int 7)) "x" = some (PyVal.int 7) ∧
    safe_parse_json (fun _ => none) "```json not json```" =
      (fun _ => (none : Option PyVal)) (cleanMarkdown "```json not json```") ∧
    triage_complaint (fun _ => none) (Except.ok "```json not json```") =
      Except.ok get_fallback_response :=
  ⟨(parse_retry_once (fun _ => some (PyVal.int 7)) "x").1 (PyVal.int 7) rfl,
   (parse_retry_once (fun _ => none) "```json not json```").2.1 rfl,
   (parse_retry_once (fun _ => none) "```json not json```").2.2 rfl rfl⟩

/-- C2: the work claim is the single conditional update
"SET status=processing WHERE id=X AND status=pending". Any serialization of
N concurrent claim attempts on the same pending ticket (the statement is
atomic, so every interleaving is such a serialization) has exactly one
attempt observe rowcount 1 and transition the ticket to processing, while
every other attempt observes rowcount 0; and a full pipeline run whose
claim observes rowcount 0 returns without modifying the ticket. -/
theorem claim_exclusive (t : Ticket) (n : Nat) (ai : AITriageResponse)
    (pub : BrokerBehavior) (hp : t.status = TicketStatus.pending) (hn : 1 ≤ n) :
    runClaims t.id [t] n =
      ([{ t with status := TicketStatus.processing }],
        1 :: List.replicate (n - 1) 0) ∧
    (1 :: List.replicate (n - 1) 0).count 1 = 1 ∧
    (1 :: List.replicate (n - 1) 0).count 0 = n - 1 ∧
    (∀ u : Ticket, u.status ≠ TicketStatus.pending →
        claimUpdate u.id [u] = ([u], 0) ∧
        process_ticket_triage ai noFaults pub u.id [u] =
          { store := [u], raised := false, didTriage := false }) := by
  obtain ⟨m, rfl⟩ : ∃ m, n = m + 1 := ⟨n - 1, (Nat.succ_pred_eq_of_pos hn).symm⟩
  refine ⟨?_, ?_, ?_, ?_⟩
  · have h2 := runClaims_nonpending { t with status := TicketStatus.processing }
      (by simp) m
    simp only [runClaims, claimUpdate_pending t hp]
    simp only at h2
    simp [h2]
  · simp [List.count_cons, List.count_replicate]
  · simp [List.count_cons, List.count_replicate]
  · intro u hu
    exact ⟨claimUpdate_nonpending u hu, process_nonpending_nofault u ai pub hu⟩

/-- C2 witness: three serialized claim attempts on a concrete pending
ticket, and a full no-fault run on a concrete non-pending ticket. -/
theorem claim_exclusive_witness :
    runClaims 1 [tPend] 3 =
      ([{ tPend with status := TicketStatus.processing }],
        1 :: List.replicate 2 0) ∧
    process_ticket_triage get_fallback_response noFaults brokerUp 2 [tDone] =
      { store := [tDone], raised := false, didTriage := false } := by
  have h := claim_exclusive tPend 3 get_fallback_response brokerUp rfl (by decide)
  exact ⟨h.1, (h.2.2.2 tDone (by decide)).2⟩

/-- C3 counterexample: the claim includes the exception-handling path, but
that handler (tasks/triage.py lines 114-120) sets status=FAILED without
checking the current status. A store exception during the claim of a run
on a COMPLETED ticket (rowcount would have been 0) diverts to the handler,
which moves the completed ticket to failed: a transition out of a terminal
state. -/
theorem terminal_monotonicity_counterexample :
    tDone.status = TicketStatus.completed ∧
    (process_ticket_triage get_fallback_response
        { noFaults with failClaim := true } brokerUp 2 [tDone]).store.map
      Ticket.status = [TicketStatus.failed] ∧
    TicketStatus.failed ≠ TicketStatus.completed := by
  refine ⟨rfl, ?_, by decide⟩
  decide

/-- C3 amended: a ticket in status failed keeps status failed under every
run, whatever faults occur (the handler can only rewrite failed to failed);
and a run without store exceptions never changes a ticket that is already
completed or failed (its claim matches no row and it returns). What the
counterexample removes from the original claim is only the
exception-handling path on a completed ticket, which rewrites completed to
failed. -/
theorem terminal_monotonicity_amended (t : Ticket) (ai : AITriageResponse)
    (f : DbFaults) (pub : BrokerBehavior) :
    (t.status = TicketStatus.failed →
        (process_ticket_triage ai f pub t.id [t]).store.map Ticket.status =
          [TicketStatus.failed]) ∧
    ((t.status = TicketStatus.completed ∨ t.status = TicketStatus.failed) →
        f = noFaults →
        process_ticket_triage ai f pub t.id [t] =
          { store := [t], raised := false, didTriage := false }) := by
  refine ⟨?_, ?_⟩
  · intro h
    have hnp : t.status ≠ TicketStatus.pending := by simp [h]
    by_cases hq : f.failQuery
    · by_cases hh : f.failHandler <;>
        simp [process_ticket_triage, hq, hh, errorHandler_singleton, h]
    · by_cases hc : f.failClaim
      · by_cases hh : f.failHandler <;>
          simp [process_ticket_triage, hq, hc, hh, errorHandler_singleton,
            findTicket_singleton, h]
      · simp [process_ticket_triage, hq, hc, findTicket_singleton,
          claimUpdate_nonpending t hnp, h]
  · rintro h rfl
    exact process_nonpending_nofault t ai pub (by rcases h with h | h <;> simp [h])

/-- C3 amended witness: a failed ticket under a query fault with a failing
handler keeps status failed; a completed ticket under a no-fault run is
untouched. -/
theorem terminal_monotonicity_amended_witness :
    (process_ticket_triage get_fallback_response
        { noFaults with failQuery := true, failHandler := true } brokerUp 3
        [tFail]).store.map Ticket.status = [TicketStatus.failed] ∧
    process_ticket_triage get_fallback_response noFaults brokerUp 2 [tDone] =
      { store := [tDone], raised := false, didTriage := false } :=
  ⟨(terminal_monotonicity_amended tFail get_fallback_response
      { noFaults with failQuery := true, failHandler := true } brokerUp).1 rfl,
   (terminal_monotonicity_amended tDone get_fallback_response noFaults
      brokerUp).2 (Or.inl rfl) rfl⟩

/-- Unrolling of one huey invocation. -/
theorem hueyRun_succ (ai : AITriageResponse) (pub : BrokerBehavior)
    (ticket_id : Int) (faults : Nat → DbFaults) (store : List Ticket)
    (fuel : Nat) :
    hueyRun ai pub ticket_id faults store (fuel + 1) =
      (let r := process_ticket_triage ai (faults 0) pub ticket_id store
       if r.raised then
         let rest := hueyRun ai pub ticket_id (fun n => faults (n + 1)) r.store fuel
         (rest.1, rest.2.1 + 1, rest.2.2 + (if r.didTriage then 1 else 0))
       else (r.store, 1, if r.didTriage then 1 else 0)) := rfl

/-- One invocation with the triage step raising on a pending ticket: the
ticket gets claimed, the handler marks it failed, the invocation re-raises
after one triage execution. -/
theorem process_pending_triageFault (t : Ticket) (ai : AITriageResponse)
    (pub : BrokerBehavior) (ht : t.status = TicketStatus.pending) :
    process_ticket_triage ai { noFaults with failTriage := true } pub t.id [t] =
      { store := [{ t with status := TicketStatus.failed,
                           error_message := some ("triage error".take 500) }],
        raised := true, didTriage := true } := by
  simp [process_ticket_triage, noFaults, claimUpdate_pending t ht,
    errorHandler, findTicket, updateWhereId]

/-- One invocation with the triage step raising on a non-pending ticket:
the claim matches no row and the invocation returns cleanly without doing
triage work. -/
theorem process_nonpending_triageFault (u : Ticket) (ai : AITriageResponse)
    (pub : BrokerBehavior) (hu : u.status ≠ TicketStatus.pending) :
    process_ticket_triage ai { noFaults with failTriage := true } pub u.id [u] =
      { store := [u], raised := false, didTriage := false } := by
  simp [process_ticket_triage, noFaults, findTicket_singleton,
    claimUpdate_nonpending u hu]

/-- C4 counterexample: with the default huey configuration
(retries=3, so fuel = 1 + 3 = 4) and a triage step that raises in every
invocation, a concrete pending ticket ends in status failed after ONE
invocation that executed the triage work; the retry chain stops at the
second invocation, whose claim matches nothing and which returns cleanly.
The triage work therefore does not execute "exactly the configured retry
bound" (3) of times as claimed: it executes once. -/
theorem retry_bound_counterexample :
    (hueyRun get_fallback_response brokerUp 1 alwaysTriageFault [tPend] 4).1.map
      Ticket.status = [TicketStatus.failed] ∧
    (hueyRun get_fallback_response brokerUp 1 alwaysTriageFault [tPend] 4).2.1 = 2 ∧
    (hueyRun get_fallback_response brokerUp 1 alwaysTriageFault [tPend] 4).2.2 = 1 ∧
    (1 : Nat) ≠ 3 := by
  refine ⟨?_, ?_, ?_, by decide⟩ <;> decide

/-- C4 amended: with an always-raising triage step and the default retry
configuration, the first invocation claims the pending ticket, executes the
triage work once, marks the ticket failed and re-raises; the first retry
finds the ticket no longer pending and returns cleanly, ending the chain.
The final status is failed, reached after exactly 2 task invocations of
which exactly 1 executed the triage work — bounded by 1 + retries, but not
equal to the retry bound as the original claim states. -/
theorem retry_bound_amended (t : Ticket) (ai : AITriageResponse)
    (pub : BrokerBehavior) (ht : t.status = TicketStatus.pending) :
    hueyRun ai pub t.id alwaysTriageFault [t] 4 =
      ([{ t with status := TicketStatus.failed,
                 error_message := some ("triage error".take 500) }], 2, 1) := by
  have s1 := process_pending_triageFault t ai pub ht
  have s2 := process_nonpending_triageFault
    { t with status := TicketStatus.failed,
             error_message := some ("triage error".take 500) } ai pub (by simp)
  rw [show (4 : Nat) = 3 + 1 from rfl, hueyRun_succ]
  simp only [alwaysTriageFault, s1]
  rw [show (3 : Nat) = 2 + 1 from rfl, hueyRun_succ]
  simp only [alwaysTriageFault] at s2 ⊢
  simp [s2]

/-- C4 amended witness: the concrete pending ticket run through the
always-raising scenario. -/
theorem retry_bound_amended_witness :
    hueyRun get_fallback_response brokerUp 1 alwaysTriageFault [tPend] 4 =
      ([{ tPend with status := TicketStatus.failed,
                     error_message := some ("triage error".take 500) }], 2, 1) :=
  retry_bound_amended tPend get_fallback_response brokerUp rfl

/-- C7: publish_ticket_update returns False without raising when the
publish call fails (broker unreachable), and a False return leaves the
committed completed transition intact — but when get_redis_client() itself
raises, the finally block closes the never-bound local `client` and the
call raises NameError instead of returning False; inside the pipeline try
block that exception lands in the error handler, which converts the
already-committed completed transition into failed. This theorem evaluates
the code on both failure modes. -/
theorem publish_failure_behaviour :
    publish_ticket_update { createOk := false, publishOk := true } =
      PublishResult.raised "NameError" ∧
    publish_ticket_update { createOk := false, publishOk := false } =
      PublishResult.raised "NameError" ∧
    publish_ticket_update { createOk := true, publishOk := false } =
      PublishResult.returnedFalse ∧
    publish_ticket_update brokerUp = PublishResult.returnedTrue ∧
    (process_ticket_triage get_fallback_response noFaults
        { createOk := true, publishOk := false } 1 [tPend]).store.map
      Ticket.status = [TicketStatus.completed] ∧
    (process_ticket_triage get_fallback_response noFaults
        { createOk := true, publishOk := false } 1 [tPend]).raised = false ∧
    (process_ticket_triage get_fallback_response noFaults
        { createOk := false, publishOk := true } 1 [tPend]).store.map
      Ticket.status = [TicketStatus.failed] := by
  refine ⟨rfl, rfl, rfl, rfl, ?_, ?_, ?_⟩ <;> decide

/-- C5: the claim says a subscribe request naming an already-completed
ticket receives a ticket_updated snapshot right after the subscribed
acknowledgment. The code cannot send that message: TicketResponse declares
ai_status as a required field, no queried ORM row exposes an ai_status
attribute (models/ticket.py maps no such column), so
TicketResponse.model_validate raises ValidationError on the first matching
row, fetch_ticket_snapshots catches it and returns the rows serialized so
far — the empty list — and the endpoint sends nothing after the
acknowledgment. This theorem evaluates the code at the failing input: a
store holding only the completed ticket, a fresh connection subscribing to
its id, yielding the acknowledgment alone. -/
theorem subscribe_snapshot_never_sent :
    ticketResponse_model_validate tDone = Except.error "ValidationError" ∧
    fetch_ticket_snapshots [tDone] [2] = [] ∧
    websocket_endpoint_step [tDone] [] 7
        [("action", PyVal.str "subscribe"),
         ("ticket_ids", PyVal.list [PyVal.int 2])] =
      (manager_subscribe [] 7 [2], [WsOut.subscribed [2]]) ∧
    tDone.status = TicketStatus.completed :=
  ⟨rfl, rfl, rfl, rfl⟩

/-- C8: the listener loop skips a message whose body fails JSON decoding
and keeps processing (first conjunct: the following well-formed message is
still delivered), but a message whose body is valid JSON of the wrong
shape (the string "42" decodes to an int, on which data.get raises
AttributeError, which only the outer except catches) terminates the
listener loop: nothing is delivered and the following well-formed message
is never consumed (second conjunct). This theorem evaluates the code at
the failing input. -/
theorem listener_terminated_by_nonobject_message :
    subscribe_ticket_updates_async demoConns [syntaxBadMsg, goodMsg] =
      { delivered := [(10, wsUpdateMessage (PyVal.dict
          [("id", PyVal.int 1), ("status", PyVal.str "completed")]))],
        terminated := false, consumed := 2 } ∧
    subscribe_ticket_updates_async demoConns [nonObjectMsg, goodMsg] =
      { delivered := [], terminated := true, consumed := 1 } :=
  ⟨rfl, rfl⟩

/-- C9 counterexample: the subscribe branch converts entries with Python
int(), so the request naming the NON-INTEGER entry "5" is not answered
with an error and does produce a subscription: the string is coerced to 5,
the connection is registered under ticket 5 and the acknowledgment is sent. -/
theorem subscribe_accepts_numeric_string :
    websocket_endpoint_step [] [] 7
        [("action", PyVal.str "subscribe"),
         ("ticket_ids", PyVal.list [PyVal.str "5"])] =
      ([(5, [7])], [WsOut.subscribed [5]]) ∧
    ([(5, [7])] : ConnMap) ≠ ([] : ConnMap) ∧
    (WsOut.subscribed [5]).isError = false := by
  refine ⟨rfl, ?_, rfl⟩
  decide

/-- C9 amended: a subscribe request whose ticket_ids is not a list, or
whose list has an entry Python int() cannot convert, is answered with an
error message and produces no subscription; entries int() does convert —
including numeric strings and booleans, which are not integers — are
coerced and subscribed rather than rejected; an unsubscribe request keeps
the convertible entries, drops the rest, and sends no response. -/
theorem ws_ids_validation_amended (store : List Ticket) (m : ConnMap)
    (ws : Nat) (xs : List PyVal) (v : PyVal) :
    ((∀ ys : List PyVal, v ≠ PyVal.list ys) →
        websocket_endpoint_step store m ws
            [("action", PyVal.str "subscribe"), ("ticket_ids", v)] =
          (m, [WsOut.errorMsg "ticket_ids must be a list of integers"])) ∧
    (xs.mapM pyInt = none →
        websocket_endpoint_step store m ws
            [("action", PyVal.str "subscribe"), ("ticket_ids", PyVal.list xs)] =
          (m, [WsOut.errorMsg "All ticket_ids must be valid integers"])) ∧
    (∀ ids : List Int, xs.mapM pyInt = some ids →
        websocket_endpoint_step store m ws
            [("action", PyVal.str "subscribe"), ("ticket_ids", PyVal.list xs)] =
          (manager_subscribe m ws ids,
            WsOut.subscribed ids ::
              (fetch_ticket_snapshots store ids).map WsOut.ticketUpdated)) ∧
    (websocket_endpoint_step store m ws
        [("action", PyVal.str "unsubscribe"), ("ticket_ids", PyVal.list xs)] =
      (manager_unsubscribe m ws (xs.filterMap pyInt), [])) := by
  refine ⟨?_, ?_, ?_, rfl⟩
  · intro h
    cases v with
    | list ys => exact absurd rfl (h ys)
    | int n => rfl
    | str s => rfl
    | bool b => rfl
    | null => rfl
    | dict fs => rfl
  · intro h
    have h2 : List.mapM.loop pyInt xs [] = none := h
    simp only [websocket_endpoint_step, dictGet]
    simp [h2]
  · intro ids h
    have h2 : List.mapM.loop pyInt xs [] = some ids := h
    simp only [websocket_endpoint_step, dictGet]
    simp [h2]

/-- C9 amended witness: a non-list ticket_ids, a list with an
unconvertible entry, and an unsubscribe mixing an unconvertible and a
convertible entry. -/
theorem ws_ids_validation_amended_witness :
    websocket_endpoint_step [] [] 7
        [("action", PyVal.str "subscribe"), ("ticket_ids", PyVal.int 3)] =
      ([], [WsOut.errorMsg "ticket_ids must be a list of integers"]) ∧
    websocket_endpoint_step [] [] 7
        [("action", PyVal.str "subscribe"),
         ("ticket_ids", PyVal.list [PyVal.null])] =
      ([], [WsOut.errorMsg "All ticket_ids must be valid integers"]) ∧
    websocket_endpoint_step [tDone] [] 7
        [("action", PyVal.str "unsubscribe"),
         ("ticket_ids", PyVal.list [PyVal.null, PyVal.int 2])] =
      (manager_unsubscribe [] 7 [2], []) :=
  ⟨(ws_ids_validation_amended [] [] 7 [] (PyVal.int 3)).1
      (fun _ h => nomatch h),
   (ws_ids_validation_amended [] [] 7 [PyVal.null] PyVal.null).2.1 rfl,
   (ws_ids_validation_amended [tDone] [] 7 [PyVal.null, PyVal.int 2]
      PyVal.null).2.2.2⟩
